import Mathlib

/-!
Verification of the analytical core of the ubem-mcp repository.

Two components are embedded from the Python source:

* the consecutive-hot-period detector of
  src/ubem_analysis_mcp/tools/weather_analysis.py
  (analyze_epw_hottest_days, get_hottest_day_date);
* the comfort threshold-breach analyzer of
  src/ubem_analysis_mcp/tools/thermal_comfort_analysis.py
  (load_hourly_temperature_data, analyse_comfort_thresholds).

Conventions of the embedding:

* Python floats are modelled as rationals; all the claims under study are
  about comparisons, counts and exact means, which the rational model
  mirrors exactly up to floating-point rounding.
* A pandas NaN produced by a division by a zero-length window (and
  propagated through sums and means) is modelled as the value none of an
  Option type.
* File reading and row parsing, which happen inside the try block of
  analyze_epw_hottest_days, are modelled by handing the function the
  outcome of that phase as a value of Except String (List Sample).
* Timestamps: load_hourly_temperature_data assigns to table row i the
  instant 2020-01-01 00:00 plus i hours; a timestamp is therefore
  represented by its row position i.
-/

/-! ## Section 1: the weather detector (weather_analysis.py) -/

/-- One hourly EPW record: month, day, hour and dry-bulb temperature,
from the fixed column positions read by analyze_epw_hottest_days. -/
structure Sample where
  month : ℕ
  day : ℕ
  hour : ℕ
  temp : ℚ
deriving DecidableEq

/-- The fixed non-leap month length table of to_day_of_year. -/
def daysInMonth : List ℕ := [31, 28, 31, 30, 31, 30, 31, 31, 30, 31, 30, 31]

/-- Embeds to_day_of_year: sum of the first month-1 table entries plus day. -/
def toDayOfYear (month day : ℕ) : ℕ :=
  (daysInMonth.take (month - 1)).sum + day

/-- One element of the all_days list of analyze_epw_hottest_days:
the tuple (doy, month, day, average temperature, maximum temperature). -/
structure DayEntry where
  doy : ℕ
  month : ℕ
  day : ℕ
  avgTemp : ℚ
  maxTemp : ℚ
deriving DecidableEq

/-- Mean of a list of rationals, as np.mean on a nonempty list. -/
def listMean (l : List ℚ) : ℚ := l.sum / (l.length : ℚ)

/-- Maximum of a list of rationals, as np.max on a nonempty list. -/
def listMax (l : List ℚ) : ℚ := l.foldl max (l.headD 0)

/-- Distinct (month, day) keys in first-appearance order, as the
defaultdict grouping of analyze_epw_hottest_days produces them. -/
def dayKeys (samples : List Sample) : List (ℕ × ℕ) :=
  samples.foldl
    (fun ks s => if (s.month, s.day) ∈ ks then ks else ks ++ [(s.month, s.day)]) []

/-- All temperatures recorded for a given (month, day) key, in file order. -/
def dayTemps (samples : List Sample) (k : ℕ × ℕ) : List ℚ :=
  (samples.filter (fun s => s.month = k.1 ∧ s.day = k.2)).map Sample.temp

/-- Lexicographic comparison of day entries viewed as the Python tuple
(doy, month, day, avg, max), matching list.sort on all_days. -/
def entryLe (a b : DayEntry) : Bool :=
  if a.doy < b.doy then true else if b.doy < a.doy then false
  else if a.month < b.month then true else if b.month < a.month then false
  else if a.day < b.day then true else if b.day < a.day then false
  else if a.avgTemp < b.avgTemp then true else if b.avgTemp < a.avgTemp then false
  else decide (a.maxTemp ≤ b.maxTemp)

/-- Insert into a sorted list, auxiliary to the sorting step. -/
def insertLe {α : Type} (le : α → α → Bool) (a : α) : List α → List α
  | [] => [a]
  | b :: bs => if le a b then a :: b :: bs else b :: insertLe le a bs

/-- Insertion sort; with a total comparator on the distinct all_days
tuples it yields exactly the order produced by list.sort. -/
def sortLe {α : Type} (le : α → α → Bool) : List α → List α
  | [] => []
  | a :: as => insertLe le a (sortLe le as)

/-- The all_days list of analyze_epw_hottest_days: one entry per distinct
(month, day) key, with mean and max of that day, sorted ascending. -/
def allDays (samples : List Sample) : List DayEntry :=
  sortLe entryLe ((dayKeys samples).map (fun k =>
    ⟨toDayOfYear k.1 k.2, k.1, k.2,
     listMean (dayTemps samples k), listMax (dayTemps samples k)⟩))

/-- The consecutiveness check of the sliding-window loop: every adjacent
pair of day-of-year values differs by exactly one. -/
def isConsecutiveDoys : List DayEntry → Bool
  | [] => true
  | [_] => true
  | a :: b :: rest => (b.doy == a.doy + 1) && isConsecutiveDoys (b :: rest)

/-- The window of n entries starting at index i of the sorted day list. -/
def windowAt (days : List DayEntry) (n i : ℕ) : List DayEntry :=
  (days.drop i).take n

/-- Mean of the daily average temperatures of the window at index i. -/
def windowAvg (days : List DayEntry) (n i : ℕ) : ℚ :=
  listMean ((windowAt days n i).map DayEntry.avgTemp)

/-- Start indices scanned by the loop: range(len(all_days) - top_n + 1),
which is empty when top_n exceeds the number of days. -/
def candidateIdxs (days : List DayEntry) (n : ℕ) : List ℕ :=
  if n ≤ days.length then List.range (days.length - n + 1) else []

/-- One iteration of the loop body: keep the window when it is
consecutive and strictly beats the best average so far. -/
def stepBest (days : List DayEntry) (n : ℕ) (best : ℚ × ℕ) (i : ℕ) : ℚ × ℕ :=
  if isConsecutiveDoys (windowAt days n i) = true ∧ best.1 < windowAvg days n i
  then (windowAvg days n i, i) else best

/-- The full scan, starting from the sentinel best_avg = -999 and
best_start_idx = 0, returning (best_avg, best_start_idx). -/
def findBest (days : List DayEntry) (n : ℕ) : ℚ × ℕ :=
  (candidateIdxs days n).foldl (stepBest days n) (-999, 0)

/-- A valid window in the sense of the spec: it fits inside the sorted
day list and its day-of-year values are contiguous. -/
abbrev validWindow (days : List DayEntry) (n i : ℕ) : Prop :=
  i + n ≤ days.length ∧ isConsecutiveDoys (windowAt days n i) = true

/-- The success payload of analyze_epw_hottest_days: the selected
window entries in window order, the (month, day) of its first entry, and
the reported sequence average temperature (the final best_avg). -/
structure AnalyzeSuccess where
  top_hottest_days : List DayEntry
  earliest_hot_day : ℕ × ℕ
  sequence_average_temperature : ℚ
deriving DecidableEq

/-- Fallback entry used to express head access of a nonempty list. -/
def defaultEntry : DayEntry := ⟨0, 0, 0, 0, 0⟩

/-- The window the extraction loop reads: entries best_start_idx .. +top_n
of the sorted day list. -/
def bestWindow (samples : List Sample) (n : ℕ) : List DayEntry :=
  windowAt (allDays samples) n (findBest (allDays samples) n).2

/-- The body of analyze_epw_hottest_days after parsing: build all_days,
scan for the best window, then extract entries best_start_idx .. +top_n.
The extraction raises IndexError in Python (caught by the outer handler)
exactly when the index range overruns the list or top_n is zero; this is
the Except.error branch here. -/
def analyzeCore (samples : List Sample) (n : ℕ) : Except String AnalyzeSuccess :=
  if (bestWindow samples n).length = n ∧ n ≠ 0 then
    Except.ok
      { top_hottest_days := bestWindow samples n
        earliest_hot_day := (((bestWindow samples n).headD defaultEntry).month,
                             ((bestWindow samples n).headD defaultEntry).day)
        sequence_average_temperature := (findBest (allDays samples) n).1 }
  else Except.error "list index out of range"

/-- The dictionary returned by analyze_epw_hottest_days: on success the
data fields are populated and error is absent; on any caught exception
success is False and only the error string is present. -/
structure AnalyzeResult where
  success : Bool
  error : Option String
  top_hottest_days : Option (List DayEntry)
  earliest_hot_day : Option (ℕ × ℕ)
  sequence_average_temperature : Option ℚ
deriving DecidableEq

/-- Embeds analyze_epw_hottest_days: the whole body runs inside a try
block, so a failed read or parse (the Except.error input) and an internal
IndexError both land in the except branch, which returns a dictionary
with success False and the error text. -/
def analyze_epw_hottest_days (input : Except String (List Sample)) (n : ℕ) : AnalyzeResult :=
  match input with
  | Except.error e => ⟨false, some e, none, none, none⟩
  | Except.ok samples =>
    match analyzeCore samples n with
    | Except.error e => ⟨false, some e, none, none, none⟩
    | Except.ok r =>
      ⟨true, none, some r.top_hottest_days, some r.earliest_hot_day,
       some r.sequence_average_temperature⟩

/-- Embeds get_hottest_day_date: the earliest (month, day) when the
analysis succeeded, None otherwise. -/
def get_hottest_day_date (input : Except String (List Sample)) (n : ℕ) : Option (ℕ × ℕ) :=
  let r := analyze_epw_hottest_days input n
  if r.success = true then r.earliest_hot_day else none

/-! ### Concrete detector inputs used by the claim theorems -/

/-- Two recorded days with a gap between them: January 1 and January 3. -/
def gapSamples : List Sample := [⟨1, 1, 0, 20⟩, ⟨1, 3, 0, 25⟩]

/-- Two recorded days with a gap: March 1 and March 3 (doys 60 and 62). -/
def gapSamplesMarch : List Sample := [⟨3, 1, 0, 10⟩, ⟨3, 3, 0, 12⟩]

/-! ## Claim C9 -/

/-- C9: for every grouped day with month in 1..12 and day-of-month in
1..31, the day-of-year equals the sum of the first month-1 entries of the
fixed table [31,28,31,30,31,30,31,31,30,31,30,31] plus the day, is a
1-based integer in 1..365, and February always contributes exactly 28
days (crossing from February to March adds 28 regardless of year). -/
theorem C9_day_of_year (m d : ℕ) (hm1 : 1 ≤ m) (hm2 : m ≤ 12)
    (hd1 : 1 ≤ d) (hd2 : d ≤ 31) :
    toDayOfYear m d = (daysInMonth.take (m - 1)).sum + d
    ∧ 1 ≤ toDayOfYear m d ∧ toDayOfYear m d ≤ 365
    ∧ toDayOfYear 3 d = toDayOfYear 2 d + 28 := by
  refine ⟨rfl, ?_, ?_, ?_⟩
  · unfold toDayOfYear; omega
  · unfold toDayOfYear daysInMonth
    interval_cases m <;> simp <;> omega
  · unfold toDayOfYear daysInMonth
    simp
    omega

/-- Witness for C9 at the leap-day grouping (2, 29): its doy is 60. -/
theorem C9_witness :
    (1 ≤ 2 ∧ 2 ≤ 12 ∧ 1 ≤ 29 ∧ 29 ≤ 31)
    ∧ (toDayOfYear 2 29 = (daysInMonth.take (2 - 1)).sum + 29
       ∧ 1 ≤ toDayOfYear 2 29 ∧ toDayOfYear 2 29 ≤ 365
       ∧ toDayOfYear 3 29 = toDayOfYear 2 29 + 28) :=
  ⟨by decide, C9_day_of_year 2 29 (by decide) (by decide) (by decide) (by decide)⟩

/-! ## Claim C1 -/

/-- C1: on a source whose distinct days are January 1 and January 3 only
(no contiguous 2-day run exists), analyze_epw_hottest_days with
windowDays = 2 does not fail: it returns success = True, reports the
sentinel -999 as the sequence average temperature, and hands back the
two non-consecutive days as the window, contradicting the claimed
InsufficientDataError. -/
theorem C1_gap_no_error :
    (analyze_epw_hottest_days (Except.ok gapSamples) 2).success = true
    ∧ (analyze_epw_hottest_days (Except.ok gapSamples) 2).sequence_average_temperature
        = some (-999)
    ∧ (analyze_epw_hottest_days (Except.ok gapSamples) 2).top_hottest_days
        = some [⟨1, 1, 1, 20, 20⟩, ⟨3, 1, 3, 25, 25⟩]
    ∧ (analyze_epw_hottest_days (Except.ok gapSamples) 2).error = none := by
  norm_num [analyze_epw_hottest_days, analyzeCore, bestWindow, allDays, dayKeys, dayTemps,
    gapSamples, sortLe, insertLe, entryLe, listMean, listMax, toDayOfYear,
    daysInMonth, findBest, candidateIdxs, stepBest, windowAt, windowAvg,
    isConsecutiveDoys, List.filter, List.range, List.range.loop, List.foldl]

/-! ## Claim C4 -/

/-- C4: the detector can return a window whose day-of-year values are
not consecutive: with recorded days March 1 and March 3 only and
windowDays = 2, the returned aggregates have doys 60 and 62 and the
contiguity check rejects them, contradicting the claimed invariant. -/
theorem C4_nonconsecutive_window :
    analyzeCore gapSamplesMarch 2
      = Except.ok ⟨[⟨60, 3, 1, 10, 10⟩, ⟨62, 3, 3, 12, 12⟩], (3, 1), -999⟩
    ∧ ([⟨60, 3, 1, 10, 10⟩, ⟨62, 3, 3, 12, 12⟩] : List DayEntry).map DayEntry.doy = [60, 62]
    ∧ isConsecutiveDoys [⟨60, 3, 1, 10, 10⟩, ⟨62, 3, 3, 12, 12⟩] = false := by
  norm_num [analyzeCore, bestWindow, allDays, dayKeys, dayTemps,
    gapSamplesMarch, sortLe, insertLe, entryLe, listMean, listMax, toDayOfYear,
    daysInMonth, findBest, candidateIdxs, stepBest, windowAt, windowAvg,
    isConsecutiveDoys, List.filter, List.range, List.range.loop, List.foldl]

/-! ## Claim C3: the sliding-window scan and its fold invariant -/

/-- The state of the scan after processing start indices 0 .. k-1. -/
def bestUpto (days : List DayEntry) (n : ℕ) : ℕ → ℚ × ℕ
  | 0 => (-999, 0)
  | k + 1 => stepBest days n (bestUpto days n k) k

/-- Folding the step function over range m is the iterated step. -/
theorem foldl_range_stepBest (days : List DayEntry) (n : ℕ) :
    ∀ m : ℕ, (List.range m).foldl (stepBest days n) (-999, 0) = bestUpto days n m := by
  intro m
  induction m with
  | zero => simp [bestUpto]
  | succ m ih =>
    rw [List.range_succ, List.foldl_append, ih]
    rfl

/-- When top_n fits, the scan is the iterated step over all candidate
start indices. -/
theorem findBest_eq_bestUpto (days : List DayEntry) (n : ℕ) (h : n ≤ days.length) :
    findBest days n = bestUpto days n (days.length - n + 1) := by
  unfold findBest candidateIdxs
  rw [if_pos h, foldl_range_stepBest]

/-- Invariant of the scan: after processing indices below k, either the
state is still the sentinel and every consecutive window seen so far has
average at most -999, or the state holds the first consecutive window of
maximal average among those seen, with average above the sentinel. -/
theorem bestUpto_spec (days : List DayEntry) (n : ℕ) (k : ℕ) :
    (bestUpto days n k = (-999, 0)
      ∧ ∀ i, i < k → isConsecutiveDoys (windowAt days n i) = true →
          windowAvg days n i ≤ -999)
    ∨ ((bestUpto days n k).2 < k
        ∧ isConsecutiveDoys (windowAt days n (bestUpto days n k).2) = true
        ∧ windowAvg days n (bestUpto days n k).2 = (bestUpto days n k).1
        ∧ -999 < (bestUpto days n k).1
        ∧ (∀ i, i < k → isConsecutiveDoys (windowAt days n i) = true →
            windowAvg days n i ≤ (bestUpto days n k).1)
        ∧ (∀ i, i < (bestUpto days n k).2 → isConsecutiveDoys (windowAt days n i) = true →
            windowAvg days n i < (bestUpto days n k).1)) := by
  induction k with
  | zero =>
    left
    exact ⟨rfl, fun i hi _ => absurd hi (Nat.not_lt_zero i)⟩
  | succ k ih =>
    have hb : bestUpto days n (k + 1) = stepBest days n (bestUpto days n k) k := rfl
    by_cases hcond : isConsecutiveDoys (windowAt days n k) = true
        ∧ (bestUpto days n k).1 < windowAvg days n k
    · have hstep : bestUpto days n (k + 1) = (windowAvg days n k, k) := by
        rw [hb]; unfold stepBest; rw [if_pos hcond]
      right
      rw [hstep]
      have hgtk : -999 < windowAvg days n k := by
        rcases ih with ⟨he, _⟩ | ⟨_, _, _, hgt, _, _⟩
        · have := hcond.2
          rw [he] at this
          exact this
        · exact lt_trans hgt hcond.2
      refine ⟨Nat.lt_succ_self k, hcond.1, rfl, hgtk, ?_, ?_⟩
      · intro i hi hC
        rcases Nat.lt_succ_iff_lt_or_eq.mp hi with hik | hik
        · rcases ih with ⟨he, hall⟩ | ⟨_, _, _, _, hall, _⟩
          · exact le_of_lt (lt_of_le_of_lt (hall i hik hC)
              (by rw [he] at hcond; exact hcond.2))
          · exact le_of_lt (lt_of_le_of_lt (hall i hik hC) hcond.2)
        · subst hik; exact le_refl _
      · intro i hi hC
        rcases ih with ⟨he, hall⟩ | ⟨_, _, _, _, hall, _⟩
        · exact lt_of_le_of_lt (hall i hi hC) (by rw [he] at hcond; exact hcond.2)
        · exact lt_of_le_of_lt (hall i hi hC) hcond.2
    · have hstep : bestUpto days n (k + 1) = bestUpto days n k := by
        rw [hb]; unfold stepBest; rw [if_neg hcond]
      rcases ih with ⟨he, hall⟩ | ⟨hlt, hC, heq, hgt, hall, hstrict⟩
      · left
        rw [hstep]
        refine ⟨he, ?_⟩
        intro i hi hCi
        rcases Nat.lt_succ_iff_lt_or_eq.mp hi with hik | hik
        · exact hall i hik hCi
        · subst hik
          have : ¬ ((bestUpto days n i).1 < windowAvg days n i) := fun h2 => hcond ⟨hCi, h2⟩
          rw [he] at this
          exact not_lt.mp this
      · right
        rw [hstep]
        refine ⟨Nat.lt_succ_of_lt hlt, hC, heq, hgt, ?_, hstrict⟩
        intro i hi hCi
        rcases Nat.lt_succ_iff_lt_or_eq.mp hi with hik | hik
        · exact hall i hik hCi
        · subst hik
          have : ¬ ((bestUpto days n i).1 < windowAvg days n i) := fun h2 => hcond ⟨hCi, h2⟩
          exact not_lt.mp this

/-- When some contiguous window beats the sentinel, the scan lands on a
contiguous window of maximal average, the earliest among the maxima. -/
theorem findBest_spec (days : List DayEntry) (n : ℕ)
    (hex : ∃ i, validWindow days n i ∧ -999 < windowAvg days n i) :
    validWindow days n (findBest days n).2
    ∧ windowAvg days n (findBest days n).2 = (findBest days n).1
    ∧ -999 < (findBest days n).1
    ∧ (∀ i, validWindow days n i → windowAvg days n i ≤ (findBest days n).1)
    ∧ (∀ i, validWindow days n i → windowAvg days n i = (findBest days n).1 →
        (findBest days n).2 ≤ i) := by
  obtain ⟨i0, ⟨hi0len, hi0c⟩, hi0avg⟩ := hex
  have hnlen : n ≤ days.length := by omega
  have hfb : findBest days n = bestUpto days n (days.length - n + 1) :=
    findBest_eq_bestUpto days n hnlen
  have hiN : ∀ i, i + n ≤ days.length → i < days.length - n + 1 := by omega
  rcases bestUpto_spec days n (days.length - n + 1) with ⟨heq, hall⟩ |
      ⟨hlt, hC, heqavg, hgt, hall, hstrict⟩
  · exact absurd hi0avg (not_lt.mpr (hall i0 (hiN i0 hi0len) hi0c))
  · rw [hfb]
    have hblen : (bestUpto days n (days.length - n + 1)).2 + n ≤ days.length := by omega
    refine ⟨⟨hblen, hC⟩, heqavg, hgt, ?_, ?_⟩
    · intro i hvi
      exact hall i (hiN i hvi.1) hvi.2
    · intro i hvi havg
      by_contra hcon
      have hlt2 : i < (bestUpto days n (days.length - n + 1)).2 := by omega
      exact absurd havg (ne_of_lt (hstrict i hlt2 hvi.2))

/-- Three recorded days (January 1, 3, 4) all colder than the sentinel:
the one contiguous 2-day window has average -1000, below -999. -/
def coldSamples : List Sample := [⟨1, 1, 0, -1002⟩, ⟨1, 3, 0, -1000⟩, ⟨1, 4, 0, -1000⟩]

/-- C3 counterexample: on coldSamples with windowDays = 2 the detector
returns the window (January 1, January 3), whose mean of daily means is
-1001, although the contiguous window (January 3, January 4) exists and
has the larger mean -1000: the returned window is not of maximal mean
(and is not even contiguous). -/
theorem C3_counterexample :
    analyzeCore coldSamples 2
      = Except.ok ⟨[⟨1, 1, 1, -1002, -1002⟩, ⟨3, 1, 3, -1000, -1000⟩], (1, 1), -999⟩
    ∧ validWindow (allDays coldSamples) 2 1
    ∧ windowAvg (allDays coldSamples) 2 1 = -1000
    ∧ listMean (([⟨1, 1, 1, -1002, -1002⟩, ⟨3, 1, 3, -1000, -1000⟩] : List DayEntry).map
        DayEntry.avgTemp) = -1001
    ∧ ¬ ((-1000 : ℚ) ≤ -1001) := by
  norm_num [analyzeCore, bestWindow, allDays, dayKeys, dayTemps, coldSamples,
    sortLe, insertLe, entryLe, listMean, listMax, toDayOfYear, daysInMonth,
    findBest, candidateIdxs, stepBest, windowAt, windowAvg, validWindow,
    isConsecutiveDoys, List.filter, List.range, List.range.loop, List.foldl]

/-- C3 as amended: for every sample sequence containing at least one
contiguous window of length windowDays whose mean of daily means exceeds
the -999 sentinel, the detector succeeds and returns the window at the
scanned best index; that window is contiguous, its mean of daily means
is the reported sequence average, no contiguous window of the same
length has a larger mean, and among the windows attaining the maximum
the returned one has the smallest start index in the ascending
day-of-year order of the scan. -/
theorem C3_maximality_amended (samples : List Sample) (n : ℕ) (hn : 1 ≤ n)
    (hex : ∃ i, validWindow (allDays samples) n i ∧ -999 < windowAvg (allDays samples) n i) :
    ∃ res, analyzeCore samples n = Except.ok res
      ∧ res.top_hottest_days = windowAt (allDays samples) n (findBest (allDays samples) n).2
      ∧ res.top_hottest_days.length = n
      ∧ validWindow (allDays samples) n (findBest (allDays samples) n).2
      ∧ listMean (res.top_hottest_days.map DayEntry.avgTemp)
          = res.sequence_average_temperature
      ∧ (∀ i, validWindow (allDays samples) n i →
          windowAvg (allDays samples) n i ≤ res.sequence_average_temperature)
      ∧ (∀ i, validWindow (allDays samples) n i →
          windowAvg (allDays samples) n i = res.sequence_average_temperature →
          (findBest (allDays samples) n).2 ≤ i) := by
  obtain ⟨hvalid, heqavg, hgt, hmax, hmin⟩ := findBest_spec (allDays samples) n hex
  have hwlen : (bestWindow samples n).length = n := by
    unfold bestWindow windowAt
    rw [List.length_take, List.length_drop]
    omega
  have hcond : (bestWindow samples n).length = n ∧ n ≠ 0 := ⟨hwlen, by omega⟩
  refine ⟨{ top_hottest_days := bestWindow samples n
            earliest_hot_day := (((bestWindow samples n).headD defaultEntry).month,
                                 ((bestWindow samples n).headD defaultEntry).day)
            sequence_average_temperature := (findBest (allDays samples) n).1 },
          ?_, rfl, ?_, hvalid, ?_, ?_, ?_⟩
  · unfold analyzeCore
    rw [if_pos hcond]
  · exact hwlen
  · exact heqavg
  · intro i hvi
    exact hmax i hvi
  · intro i hvi havg
    exact hmin i hvi havg

/-- Five recorded days, January 1-5, with the middle three at 30 degrees:
a concrete input on which the amended C3 theorem applies. -/
def plateauSamples : List Sample :=
  [⟨1, 1, 0, 20⟩, ⟨1, 2, 0, 30⟩, ⟨1, 3, 0, 30⟩, ⟨1, 4, 0, 30⟩, ⟨1, 5, 0, 20⟩]

/-- Witness for the amended C3 on plateauSamples with windowDays = 3. -/
theorem C3_witness :
    (1 ≤ 3
      ∧ (∃ i, validWindow (allDays plateauSamples) 3 i
          ∧ -999 < windowAvg (allDays plateauSamples) 3 i))
    ∧ (∃ res, analyzeCore plateauSamples 3 = Except.ok res
        ∧ res.top_hottest_days
            = windowAt (allDays plateauSamples) 3 (findBest (allDays plateauSamples) 3).2
        ∧ res.top_hottest_days.length = 3
        ∧ validWindow (allDays plateauSamples) 3 (findBest (allDays plateauSamples) 3).2
        ∧ listMean (res.top_hottest_days.map DayEntry.avgTemp)
            = res.sequence_average_temperature
        ∧ (∀ i, validWindow (allDays plateauSamples) 3 i →
            windowAvg (allDays plateauSamples) 3 i ≤ res.sequence_average_temperature)
        ∧ (∀ i, validWindow (allDays plateauSamples) 3 i →
            windowAvg (allDays plateauSamples) 3 i = res.sequence_average_temperature →
            (findBest (allDays plateauSamples) 3).2 ≤ i)) := by
  have hex : ∃ i, validWindow (allDays plateauSamples) 3 i
      ∧ -999 < windowAvg (allDays plateauSamples) 3 i := by
    refine ⟨1, ?_, ?_⟩ <;>
      norm_num [allDays, dayKeys, dayTemps, plateauSamples, sortLe, insertLe,
        entryLe, listMean, listMax, toDayOfYear, daysInMonth, windowAt,
        windowAvg, validWindow, isConsecutiveDoys, List.filter]
  exact ⟨⟨by norm_num, hex⟩, C3_maximality_amended plateauSamples 3 (by norm_num) hex⟩

/-! ## Section 2: the comfort breach analyzer (thermal_comfort_analysis.py) -/

/-- One row of an hourly temperature table: the value of the Hour column
and the temperatures of the building columns in column order. -/
structure Row where
  hour : ℤ
  temps : List ℚ
deriving DecidableEq

/-- An hourly temperature table: the CSV header (column names) and the
rows. Building columns are the header names other than Hour and the
DateTime column added on load; row i carries the timestamp
2020-01-01 00:00 plus i hours. -/
structure Table where
  cols : List String
  rows : List Row
deriving DecidableEq

/-- Fallback row expressing positional access. -/
def defaultRow : Row := ⟨0, []⟩

/-- Building column names: every header name except Hour and DateTime,
as load_hourly_temperature_data selects them. -/
def buildingCols (t : Table) : List String :=
  t.cols.filter (fun c => ¬ (c = "Hour" ∨ c = "DateTime"))

/-- Embeds load_hourly_temperature_data up to I/O: it raises ValueError
(Column mismatch) when the two header lists differ, otherwise hands the
two tables and the building column list to the caller. -/
def load_hourly_temperature_data (b m : Table) :
    Except String (Table × Table × List String) :=
  if b.cols = m.cols then Except.ok (b, m, buildingCols b)
  else Except.error "Column mismatch between baseline and modified files"

/-- Row positions of the event window: the indices whose baseline Hour
value is at least start_hour, in ascending order; the same boolean mask
is applied to both tables. -/
def windowIdx (b : Table) (start : ℤ) : List ℕ :=
  (List.range b.rows.length).filter (fun i => start ≤ (b.rows.getD i defaultRow).hour)

/-- The label of the first row of the event mask (pandas idxmax of the
boolean mask: the first True position, or position 0 when none is). -/
def firstEventIdx (b : Table) (start : ℤ) : ℕ :=
  (windowIdx b start).headD 0

/-- Number of event-window rows in which building column j of table t
strictly exceeds the threshold (the per-column sum of the breach mask). -/
def colBreachCount (t : Table) (idxs : List ℕ) (j : ℕ) (thr : ℚ) : ℕ :=
  (idxs.filter (fun i => thr < (t.rows.getD i defaultRow).temps.getD j 0)).length

/-- Number of building columns of a row strictly exceeding the threshold
(the per-row sum of the breach mask). -/
def rowBreachCount (r : Row) (nc : ℕ) (thr : ℚ) : ℕ :=
  ((List.range nc).filter (fun j => thr < r.temps.getD j 0)).length

/-- The breach ratio averaged over building columns: per column, the
count of breaching window rows divided by the window length times 100;
then the mean over the columns. A zero-length window or an empty column
list yields NaN in pandas, modelled as none. -/
def avgBreachRatio (t : Table) (idxs : List ℕ) (nc : ℕ) (thr : ℚ) : Option ℚ :=
  if idxs.length = 0 ∨ nc = 0 then none
  else some ((((List.range nc).map
    (fun j => (colBreachCount t idxs j thr : ℚ) / (idxs.length : ℚ) * 100)).sum) / (nc : ℚ))

/-- The first event-window row position at which the number of breaching
building columns of the modified table strictly exceeds half the number
of building columns; none when no window row qualifies. -/
def firstMajorityBreach (m : Table) (idxs : List ℕ) (nc : ℕ) (thr : ℚ) : Option ℕ :=
  (idxs.filter (fun i =>
    (nc : ℚ) * (1 / 2) < (rowBreachCount (m.rows.getD i defaultRow) nc thr : ℚ))).head?

/-- One entry of the dictionary analyse_comfort_thresholds returns: the
threshold temperature, the two averaged breach ratios, their difference,
and the optional first majority breach (row position standing for its
timestamp) with its hour offset from the event start. -/
structure BreachResult where
  threshold_temp : ℚ
  baseline_breach_ratio : Option ℚ
  modified_breach_ratio : Option ℚ
  increase : Option ℚ
  first_breach_time : Option ℕ
  hours_after_event_start : Option ℤ
deriving DecidableEq

/-- The per-threshold body of analyse_comfort_thresholds. -/
def thresholdResult (b m : Table) (cols : List String) (start : ℤ) (thr : ℚ) :
    BreachResult :=
  { threshold_temp := thr
    baseline_breach_ratio := avgBreachRatio b (windowIdx b start) cols.length thr
    modified_breach_ratio := avgBreachRatio m (windowIdx b start) cols.length thr
    increase :=
      match avgBreachRatio b (windowIdx b start) cols.length thr,
            avgBreachRatio m (windowIdx b start) cols.length thr with
      | some x, some y => some (y - x)
      | _, _ => none
    first_breach_time := firstMajorityBreach m (windowIdx b start) cols.length thr
    hours_after_event_start :=
      (firstMajorityBreach m (windowIdx b start) cols.length thr).map
        (fun i : ℕ => (i : ℤ) - (firstEventIdx b start : ℤ)) }

/-- Embeds analyse_comfort_thresholds: one BreachResult per threshold
label, in the iteration order of the threshold mapping. -/
def analyse_comfort_thresholds (b m : Table) (cols : List String) (start : ℤ)
    (ths : List (String × ℚ)) : List (String × BreachResult) :=
  ths.map (fun p => (p.1, thresholdResult b m cols start p.2))

/-- The pipeline a caller runs: load (which validates the columns), then
analyse; a load failure propagates and no per-threshold entry exists. -/
def runComfortAnalysis (b m : Table) (start : ℤ) (ths : List (String × ℚ)) :
    Except String (List (String × BreachResult)) :=
  match load_hourly_temperature_data b m with
  | Except.error e => Except.error e
  | Except.ok (bb, mm, cols) => Except.ok (analyse_comfort_thresholds bb mm cols start ths)

/-! ## Claim C7 -/

/-- C7: whenever the two header column sets differ, the pipeline stops at
the load step with the column-mismatch error and produces no
per-threshold entry. -/
theorem C7_column_mismatch (b m : Table) (start : ℤ) (ths : List (String × ℚ))
    (hset : b.cols.toFinset ≠ m.cols.toFinset) :
    runComfortAnalysis b m start ths
      = Except.error "Column mismatch between baseline and modified files" := by
  have hne : b.cols ≠ m.cols := fun h => hset (by rw [h])
  unfold runComfortAnalysis load_hourly_temperature_data
  rw [if_neg hne]

/-- Baseline table of the mismatch scenario: columns Hour and A. -/
def mismBase : Table := ⟨["Hour", "A"], [⟨1, [24]⟩]⟩

/-- Modified table of the mismatch scenario: columns Hour and B. -/
def mismModified : Table := ⟨["Hour", "B"], [⟨1, [24]⟩]⟩

/-- Witness for C7 on the concrete mismatched pair. -/
theorem C7_witness :
    mismBase.cols.toFinset ≠ mismModified.cols.toFinset
    ∧ runComfortAnalysis mismBase mismModified 1 [("comfort_limit", 26)]
        = Except.error "Column mismatch between baseline and modified files" :=
  ⟨by decide, C7_column_mismatch mismBase mismModified 1 [("comfort_limit", 26)] (by decide)⟩

/-! ## Claim C6 -/

/-- Baseline table with two rows, hours 1 and 2 (its event window for
start_hour 5 has zero rows). -/
def shortBase : Table := ⟨["Hour", "A", "B"], [⟨1, [24, 24]⟩, ⟨2, [24, 24]⟩]⟩

/-- Modified table aligned with shortBase. -/
def shortModified : Table := ⟨["Hour", "A", "B"], [⟨1, [28, 24]⟩, ⟨2, [28, 24]⟩]⟩

/-- C6 counterexample: with an event window of zero rows the analyzer
does not fail: it returns a normal per-threshold entry whose breach
ratios and increase are the NaN of the zero division (modelled none),
contradicting both the claimed EmptyWindowError and the claim that no
NaN-carrying result reaches the caller. -/
theorem C6_counterexample :
    analyse_comfort_thresholds shortBase shortModified ["A", "B"] 5 [("comfort_limit", 26)]
      = [("comfort_limit", ⟨26, none, none, none, none, none⟩)] := by
  norm_num [analyse_comfort_thresholds, thresholdResult, avgBreachRatio,
    firstMajorityBreach, windowIdx, shortBase, shortModified,
    List.filter, List.range, List.range.loop]

/-- C6 as amended: when the event window selected by eventStartHour has
zero rows, analyse_comfort_thresholds raises nothing and returns, for
every requested threshold, an entry whose breach ratios and increase are
NaN (modelled none) and whose first-breach fields are null. -/
theorem C6_empty_window_amended (b m : Table) (cols : List String) (start : ℤ)
    (ths : List (String × ℚ)) (hempty : windowIdx b start = []) :
    analyse_comfort_thresholds b m cols start ths
      = ths.map (fun p => (p.1, ⟨p.2, none, none, none, none, none⟩)) := by
  have hres : ∀ thr, thresholdResult b m cols start thr
      = ⟨thr, none, none, none, none, none⟩ := by
    intro thr
    unfold thresholdResult avgBreachRatio firstMajorityBreach
    rw [hempty]
    simp
  simp [analyse_comfort_thresholds, hres]

/-- Witness for the amended C6 on the concrete zero-row window. -/
theorem C6_witness :
    windowIdx shortBase 5 = []
    ∧ analyse_comfort_thresholds shortBase shortModified ["A", "B"] 5 [("comfort_limit", 26)]
        = ([("comfort_limit", (26 : ℚ))].map
            (fun p => (p.1, ⟨p.2, none, none, none, none, none⟩))) :=
  ⟨by decide,
   C6_empty_window_amended shortBase shortModified ["A", "B"] 5 [("comfort_limit", 26)]
     (by decide)⟩

/-! ## Claim C2 -/

/-- Scenario C baseline: 2 buildings, 4 hours, never above 26 degrees. -/
def scBaseline : Table :=
  ⟨["Hour", "A", "B"], [⟨1, [24, 24]⟩, ⟨2, [24, 24]⟩, ⟨3, [24, 24]⟩, ⟨4, [24, 24]⟩]⟩

/-- Scenario C modified: building A above 26 degrees in hours 2 to 4,
building B never. -/
def scModified : Table :=
  ⟨["Hour", "A", "B"], [⟨1, [24, 24]⟩, ⟨2, [28, 24]⟩, ⟨3, [28, 24]⟩, ⟨4, [28, 24]⟩]⟩

/-- C2: the reported breach ratio is the arithmetic mean over building
columns of the per-building percentage 100 x breaching-hours / window
rows; and on Scenario C (2 buildings, 4 event hours, threshold 26, the
modified matrix breaching in one building for 3 of 4 hours) the modified
ratio is 37.5 = 75/2, the baseline ratio 0, the increase 37.5. -/
theorem C2_breach_ratio_mean_of_buildings (b t : Table) (cols : List String)
    (start : ℤ) (thr : ℚ) (hW : windowIdx b start ≠ []) (hc : cols ≠ []) :
    avgBreachRatio t (windowIdx b start) cols.length thr
      = some ((((List.range cols.length).map (fun j =>
          100 * (colBreachCount t (windowIdx b start) j thr : ℚ)
            / ((windowIdx b start).length : ℚ))).sum) / (cols.length : ℚ))
    ∧ (thresholdResult scBaseline scModified ["A", "B"] 1 26).modified_breach_ratio
        = some (75 / 2)
    ∧ (thresholdResult scBaseline scModified ["A", "B"] 1 26).baseline_breach_ratio
        = some 0
    ∧ (thresholdResult scBaseline scModified ["A", "B"] 1 26).increase = some (75 / 2) := by
  refine ⟨?_, ?_, ?_, ?_⟩
  · have hcond : ¬ ((windowIdx b start).length = 0 ∨ cols.length = 0) := by
      rw [not_or]
      exact ⟨fun h => hW (List.length_eq_zero.mp h), fun h => hc (List.length_eq_zero.mp h)⟩
    unfold avgBreachRatio
    rw [if_neg hcond]
    have hfun : (fun j => (colBreachCount t (windowIdx b start) j thr : ℚ)
          / ((windowIdx b start).length : ℚ) * 100)
        = (fun j => 100 * (colBreachCount t (windowIdx b start) j thr : ℚ)
          / ((windowIdx b start).length : ℚ)) := by
      funext j
      ring
    rw [hfun]
  all_goals
    norm_num [thresholdResult, avgBreachRatio, windowIdx, colBreachCount,
      firstMajorityBreach, rowBreachCount, scBaseline, scModified,
      List.filter, List.range, List.range.loop]

/-- Witness for C2 in the Scenario C configuration. -/
theorem C2_witness :
    (windowIdx scBaseline 1 ≠ [] ∧ (["A", "B"] : List String) ≠ [])
    ∧ (avgBreachRatio scModified (windowIdx scBaseline 1) (["A", "B"] : List String).length 26
        = some ((((List.range (["A", "B"] : List String).length).map (fun j =>
            100 * (colBreachCount scModified (windowIdx scBaseline 1) j 26 : ℚ)
              / ((windowIdx scBaseline 1).length : ℚ))).sum)
            / ((["A", "B"] : List String).length : ℚ))
      ∧ (thresholdResult scBaseline scModified ["A", "B"] 1 26).modified_breach_ratio
          = some (75 / 2)
      ∧ (thresholdResult scBaseline scModified ["A", "B"] 1 26).baseline_breach_ratio
          = some 0
      ∧ (thresholdResult scBaseline scModified ["A", "B"] 1 26).increase = some (75 / 2)) :=
  ⟨⟨by decide, by decide⟩,
   C2_breach_ratio_mean_of_buildings scBaseline scModified ["A", "B"] 1 26
     (by decide) (by decide)⟩

/-! ## Claim C8 -/

/-- A filter with a stronger predicate keeps at most as many elements. -/
theorem length_filter_mono {α : Type} (l : List α) (p q : α → Bool)
    (h : ∀ a, p a = true → q a = true) :
    (l.filter p).length ≤ (l.filter q).length :=
  List.Sublist.length_le (List.monotone_filter_right l h)

/-- Raising the threshold cannot raise a per-column breach count. -/
theorem colBreachCount_antitone (t : Table) (idxs : List ℕ) (j : ℕ)
    (t1 t2 : ℚ) (h12 : t1 ≤ t2) :
    colBreachCount t idxs j t2 ≤ colBreachCount t idxs j t1 := by
  unfold colBreachCount
  apply length_filter_mono
  intro a ha
  simp only [decide_eq_true_eq] at ha ⊢
  exact lt_of_le_of_lt h12 ha

/-- C8: for a fixed table pair and event window, the averaged breach
ratio is antitone in the threshold temperature: both ratios exist and
the one at the higher threshold is at most the one at the lower. -/
theorem C8_threshold_antitone (b t : Table) (cols : List String) (start : ℤ)
    (t1 t2 : ℚ) (h12 : t1 ≤ t2) (hW : windowIdx b start ≠ []) (hc : cols ≠ []) :
    ∃ r1 r2, avgBreachRatio t (windowIdx b start) cols.length t1 = some r1
      ∧ avgBreachRatio t (windowIdx b start) cols.length t2 = some r2
      ∧ r2 ≤ r1 := by
  have hWn : (windowIdx b start).length ≠ 0 := fun h => hW (List.length_eq_zero.mp h)
  have hcn : cols.length ≠ 0 := fun h => hc (List.length_eq_zero.mp h)
  have hcond : ¬ ((windowIdx b start).length = 0 ∨ cols.length = 0) := by
    rw [not_or]
    exact ⟨hWn, hcn⟩
  have hWpos : (0 : ℚ) < ((windowIdx b start).length : ℚ) := by
    exact_mod_cast Nat.pos_of_ne_zero hWn
  have hcpos : (0 : ℚ) < (cols.length : ℚ) := by
    exact_mod_cast Nat.pos_of_ne_zero hcn
  unfold avgBreachRatio
  rw [if_neg hcond, if_neg hcond]
  refine ⟨_, _, rfl, rfl, ?_⟩
  apply (div_le_div_iff_of_pos_right hcpos).mpr
  apply List.sum_le_sum
  intro j hj
  apply mul_le_mul_of_nonneg_right _ (by norm_num : (0 : ℚ) ≤ 100)
  apply (div_le_div_iff_of_pos_right hWpos).mpr
  exact_mod_cast colBreachCount_antitone t (windowIdx b start) j t1 t2 h12

/-- Witness for C8 on the Scenario C tables with thresholds 26 and 28. -/
theorem C8_witness :
    ((26 : ℚ) ≤ 28 ∧ windowIdx scBaseline 1 ≠ [] ∧ (["A", "B"] : List String) ≠ [])
    ∧ (∃ r1 r2, avgBreachRatio scModified (windowIdx scBaseline 1)
          (["A", "B"] : List String).length 26 = some r1
        ∧ avgBreachRatio scModified (windowIdx scBaseline 1)
            (["A", "B"] : List String).length 28 = some r2
        ∧ r2 ≤ r1) :=
  ⟨⟨by norm_num, by decide, by decide⟩,
   C8_threshold_antitone scBaseline scModified ["A", "B"] 1 26 28
     (by norm_num) (by decide) (by decide)⟩

/-! ## Claim C5 -/

/-- Membership in the event window: row exists and its Hour passes. -/
theorem mem_windowIdx (b : Table) (start : ℤ) (i : ℕ) :
    i ∈ windowIdx b start
      ↔ i < b.rows.length ∧ start ≤ (b.rows.getD i defaultRow).hour := by
  unfold windowIdx
  rw [List.mem_filter, List.mem_range]
  simp

/-- The event-window positions are strictly increasing. -/
theorem windowIdx_pairwise (b : Table) (start : ℤ) :
    (windowIdx b start).Pairwise (fun a b => a < b) :=
  List.Pairwise.sublist (List.filter_sublist _) (List.pairwise_lt_range _)

/-- The head of a strictly increasing list of naturals is its minimum. -/
theorem head?_min {l : List ℕ} (hp : l.Pairwise (fun a b => a < b)) {a : ℕ}
    (ha : l.head? = some a) : a ∈ l ∧ ∀ k ∈ l, a ≤ k := by
  cases l with
  | nil => cases ha
  | cons x xs =>
    have hax : x = a := by simpa using ha
    subst hax
    refine ⟨List.mem_cons_self _ _, ?_⟩
    intro k hk
    rcases List.mem_cons.mp hk with h | h
    · rw [h]
    · exact le_of_lt ((List.pairwise_cons.mp hp).1 k h)

/-- Under the standard Hour layout (row i holds hour i+1) and an event
start within the year, the label pandas idxmax picks for the mask is the
row of hour start, namely position start - 1. -/
theorem firstEventIdx_eq (b : Table) (start : ℤ)
    (hhour : ∀ i, i < b.rows.length → (b.rows.getD i defaultRow).hour = (i : ℤ) + 1)
    (h1 : 1 ≤ start) (hH : start ≤ (b.rows.length : ℤ)) :
    (firstEventIdx b start : ℤ) = start - 1 := by
  have hmemW : ∀ i, i ∈ windowIdx b start
      ↔ i < b.rows.length ∧ start - 1 ≤ (i : ℤ) := by
    intro i
    rw [mem_windowIdx]
    constructor
    · rintro ⟨hlt, hle⟩
      rw [hhour i hlt] at hle
      exact ⟨hlt, by omega⟩
    · rintro ⟨hlt, hle⟩
      refine ⟨hlt, ?_⟩
      rw [hhour i hlt]
      omega
  have hs0 : ((start - 1).toNat : ℤ) = start - 1 := Int.toNat_of_nonneg (by omega)
  have hsmem : (start - 1).toNat ∈ windowIdx b start := by
    rw [hmemW]
    omega
  have hne : windowIdx b start ≠ [] := List.ne_nil_of_mem hsmem
  obtain ⟨x, xs, hLeq⟩ := List.exists_cons_of_ne_nil hne
  have hhead : (windowIdx b start).head? = some x := by rw [hLeq]; rfl
  obtain ⟨hxmem, hxmin⟩ := head?_min (windowIdx_pairwise b start) hhead
  have h1x : start - 1 ≤ (x : ℤ) := ((hmemW x).mp hxmem).2
  have h2x : x ≤ (start - 1).toNat := hxmin _ hsmem
  have hfei : firstEventIdx b start = x := by
    unfold firstEventIdx
    rw [hLeq]
    rfl
  rw [hfei]
  omega

/-- The claim-side majority-breach predicate: row i exists, lies in the
event window, and over half of the building columns of the modified
matrix strictly exceed the threshold there. -/
abbrev majorityBreachAt (b m : Table) (nc : ℕ) (start : ℤ) (thr : ℚ) (i : ℕ) : Prop :=
  i < b.rows.length ∧ start ≤ (b.rows.getD i defaultRow).hour
    ∧ (nc : ℚ) * (1 / 2) < (rowBreachCount (m.rows.getD i defaultRow) nc thr : ℚ)

/-- C5: with a non-empty event window (Hour layout i+1, event start in
[1, H]), if some event-window hour has a strict majority of breaching
building columns in the modified matrix, the result reports the earliest
such row as first_breach_time (its position is its timestamp) and its
offset from the event start hour, a non-negative integer; with no such
hour both fields are null. -/
theorem C5_first_majority_breach (b m : Table) (cols : List String) (start : ℤ) (thr : ℚ)
    (hhour : ∀ i, i < b.rows.length → (b.rows.getD i defaultRow).hour = (i : ℤ) + 1)
    (h1 : 1 ≤ start) (hH : start ≤ (b.rows.length : ℤ)) :
    ((∃ i, majorityBreachAt b m cols.length start thr i) →
      ∃ i0, majorityBreachAt b m cols.length start thr i0
        ∧ (∀ k, majorityBreachAt b m cols.length start thr k → i0 ≤ k)
        ∧ (thresholdResult b m cols start thr).first_breach_time = some i0
        ∧ (thresholdResult b m cols start thr).hours_after_event_start
            = some ((i0 : ℤ) + 1 - start)
        ∧ 0 ≤ (i0 : ℤ) + 1 - start)
    ∧ ((¬ ∃ i, majorityBreachAt b m cols.length start thr i) →
      (thresholdResult b m cols start thr).first_breach_time = none
      ∧ (thresholdResult b m cols start thr).hours_after_event_start = none) := by
  have hmemL : ∀ i, i ∈ (windowIdx b start).filter (fun i =>
        (cols.length : ℚ) * (1 / 2)
          < (rowBreachCount (m.rows.getD i defaultRow) cols.length thr : ℚ))
      ↔ majorityBreachAt b m cols.length start thr i := by
    intro i
    rw [List.mem_filter, mem_windowIdx]
    simp [and_assoc]
  have hpairL : ((windowIdx b start).filter (fun i =>
        (cols.length : ℚ) * (1 / 2)
          < (rowBreachCount (m.rows.getD i defaultRow) cols.length thr : ℚ))).Pairwise
      (fun a b => a < b) :=
    List.Pairwise.sublist (List.filter_sublist _) (windowIdx_pairwise b start)
  constructor
  · rintro ⟨iw, hiw⟩
    have hiwL := (hmemL iw).mpr hiw
    have hneL := List.ne_nil_of_mem hiwL
    obtain ⟨x, xs, hLeq⟩ := List.exists_cons_of_ne_nil hneL
    have hhead : ((windowIdx b start).filter (fun i =>
        (cols.length : ℚ) * (1 / 2)
          < (rowBreachCount (m.rows.getD i defaultRow) cols.length thr : ℚ))).head?
        = some x := by rw [hLeq]; rfl
    obtain ⟨hxmem, hxmin⟩ := head?_min hpairL hhead
    have hPx := (hmemL x).mp hxmem
    have hfmb : firstMajorityBreach m (windowIdx b start) cols.length thr = some x := hhead
    have hfei : (firstEventIdx b start : ℤ) = start - 1 :=
      firstEventIdx_eq b start hhour h1 hH
    refine ⟨x, hPx, fun k hk => hxmin k ((hmemL k).mpr hk), ?_, ?_, ?_⟩
    · exact hfmb
    · have hfield : (thresholdResult b m cols start thr).hours_after_event_start
          = (firstMajorityBreach m (windowIdx b start) cols.length thr).map
              (fun i : ℕ => (i : ℤ) - (firstEventIdx b start : ℤ)) := rfl
      rw [hfield, hfmb]
      rw [show ((some x).map (fun i : ℕ => (i : ℤ) - (firstEventIdx b start : ℤ)))
            = some ((x : ℤ) - (firstEventIdx b start : ℤ)) from rfl, hfei]
      congr 1
      ring
    · obtain ⟨hx1, hx2, hx3⟩ := hPx
      rw [hhour x hx1] at hx2
      omega
  · intro hne
    have hLnil : (windowIdx b start).filter (fun i =>
        (cols.length : ℚ) * (1 / 2)
          < (rowBreachCount (m.rows.getD i defaultRow) cols.length thr : ℚ)) = [] :=
      List.eq_nil_iff_forall_not_mem.mpr (fun a ha => hne ⟨a, (hmemL a).mp ha⟩)
    have hf : firstMajorityBreach m (windowIdx b start) cols.length thr = none := by
      unfold firstMajorityBreach
      rw [hLnil]
      rfl
    constructor
    · exact hf
    · have hfield : (thresholdResult b m cols start thr).hours_after_event_start
          = (firstMajorityBreach m (windowIdx b start) cols.length thr).map
              (fun i : ℕ => (i : ℤ) - (firstEventIdx b start : ℤ)) := rfl
      rw [hfield, hf]
      rfl

/-- Scenario D baseline: 2 buildings, hours 1 to 4, never breaching. -/
def d5Base : Table :=
  ⟨["Hour", "A", "B"], [⟨1, [24, 24]⟩, ⟨2, [24, 24]⟩, ⟨3, [24, 24]⟩, ⟨4, [24, 24]⟩]⟩

/-- Scenario D modified: a strict majority of the 2 buildings first
exceeds 26 degrees at row position 2 (hour 3), one hour after the event
start hour 2. -/
def d5Modified : Table :=
  ⟨["Hour", "A", "B"], [⟨1, [24, 24]⟩, ⟨2, [28, 24]⟩, ⟨3, [28, 28]⟩, ⟨4, [28, 28]⟩]⟩

/-- Witness for C5 on the Scenario D tables with event start hour 2. -/
theorem C5_witness :
    ((∀ i, i < d5Base.rows.length → (d5Base.rows.getD i defaultRow).hour = (i : ℤ) + 1)
      ∧ 1 ≤ (2 : ℤ) ∧ (2 : ℤ) ≤ (d5Base.rows.length : ℤ))
    ∧ (((∃ i, majorityBreachAt d5Base d5Modified (["A", "B"] : List String).length 2 26 i) →
        ∃ i0, majorityBreachAt d5Base d5Modified (["A", "B"] : List String).length 2 26 i0
          ∧ (∀ k, majorityBreachAt d5Base d5Modified (["A", "B"] : List String).length 2 26 k
              → i0 ≤ k)
          ∧ (thresholdResult d5Base d5Modified ["A", "B"] 2 26).first_breach_time = some i0
          ∧ (thresholdResult d5Base d5Modified ["A", "B"] 2 26).hours_after_event_start
              = some ((i0 : ℤ) + 1 - 2)
          ∧ 0 ≤ (i0 : ℤ) + 1 - 2)
      ∧ ((¬ ∃ i, majorityBreachAt d5Base d5Modified (["A", "B"] : List String).length 2 26 i) →
        (thresholdResult d5Base d5Modified ["A", "B"] 2 26).first_breach_time = none
        ∧ (thresholdResult d5Base d5Modified ["A", "B"] 2 26).hours_after_event_start
            = none)) :=
  ⟨⟨by decide, by norm_num, by decide⟩,
   C5_first_majority_breach d5Base d5Modified ["A", "B"] 2 26
     (by decide) (by norm_num) (by decide)⟩

/-! ## Claim C10 -/

/-- C10: analyze_epw_hottest_days is total over its outcome dictionary:
a success carries the three data fields and no error, a failure carries
an error string and no data, and get_hottest_day_date yields the
(month, day) pair exactly when success holds and None otherwise. -/
theorem C10_total_result_shape (input : Except String (List Sample)) (n : ℕ) :
    ((analyze_epw_hottest_days input n).success = true →
      (analyze_epw_hottest_days input n).top_hottest_days.isSome = true
      ∧ (analyze_epw_hottest_days input n).earliest_hot_day.isSome = true
      ∧ (analyze_epw_hottest_days input n).sequence_average_temperature.isSome = true
      ∧ (analyze_epw_hottest_days input n).error = none)
    ∧ ((analyze_epw_hottest_days input n).success = false →
      (∃ e, (analyze_epw_hottest_days input n).error = some e)
      ∧ (analyze_epw_hottest_days input n).top_hottest_days = none
      ∧ (analyze_epw_hottest_days input n).earliest_hot_day = none
      ∧ (analyze_epw_hottest_days input n).sequence_average_temperature = none)
    ∧ (get_hottest_day_date input n).isSome = (analyze_epw_hottest_days input n).success
    ∧ ((analyze_epw_hottest_days input n).success = true →
      get_hottest_day_date input n = (analyze_epw_hottest_days input n).earliest_hot_day) := by
  cases input with
  | error e => simp [analyze_epw_hottest_days, get_hottest_day_date]
  | ok samples =>
    cases h : analyzeCore samples n with
    | error e => simp [analyze_epw_hottest_days, get_hottest_day_date, h]
    | ok r => simp [analyze_epw_hottest_days, get_hottest_day_date, h]

/-- One recorded hour on January 1: a successful one-day analysis. -/
def oneSample : List Sample := [⟨1, 1, 0, 20⟩]

/-- Witness for C10 at a succeeding input. -/
theorem C10_witness :
    (analyze_epw_hottest_days (Except.ok oneSample) 1).success = true
    ∧ ((analyze_epw_hottest_days (Except.ok oneSample) 1).top_hottest_days.isSome = true
      ∧ (analyze_epw_hottest_days (Except.ok oneSample) 1).earliest_hot_day.isSome = true
      ∧ (analyze_epw_hottest_days (Except.ok oneSample) 1).sequence_average_temperature.isSome
          = true
      ∧ (analyze_epw_hottest_days (Except.ok oneSample) 1).error = none)
    ∧ get_hottest_day_date (Except.ok oneSample) 1
        = (analyze_epw_hottest_days (Except.ok oneSample) 1).earliest_hot_day :=
  have hs : (analyze_epw_hottest_days (Except.ok oneSample) 1).success = true := by
    norm_num [analyze_epw_hottest_days, analyzeCore, bestWindow, allDays, dayKeys,
      dayTemps, oneSample, sortLe, insertLe, entryLe, listMean, listMax, toDayOfYear,
      daysInMonth, findBest, candidateIdxs, stepBest, windowAt, windowAvg,
      isConsecutiveDoys, List.filter, List.range, List.range.loop, List.foldl]
  ⟨hs, (C10_total_result_shape (Except.ok oneSample) 1).1 hs,
   (C10_total_result_shape (Except.ok oneSample) 1).2.2.2 hs⟩
